import Mathlib

/-
Verification of the Ocean-Hazard repository (src/app.py) against its
natural-language specification.

The program is a prompt-orchestration and response-normalization layer around
an opaque generative model.  The shallow embedding below models:

  - JSON values as returned by Python json.loads (PyJson);
  - the model client as an oracle: each call either raises or returns raw text
    (ModelResult); json.loads itself is an oracle of type JsonLoads, since the
    claims depend only on whether parsing succeeds and on the parsed value;
  - Python str.strip / str.startswith / slice semantics over character lists;
  - Python dict item-assignment (replace in place or append) and dict
    comprehension (last value wins, first insertion position kept).

A load-bearing fact of the source, confirmed by parsing src/app.py: the
function `analyze_batch_social_posts` at line 170 is defined at column 0, i.e.
at module level, OUTSIDE `class OceanHazardDetector`; consequently the two
defs indented inside its body after its try/except — `_create_error_response`
(lines 220-230) and `get_multi_location_analysis` (lines 232-245) — are nested
local functions of that module-level function (and dead code, since every path
through its try statement returns first).  The class therefore has exactly the
attributes `__init__`, `create_hazard_analysis_prompt`,
`analyze_current_hazards` and `analyze_user_report`, and every
`self._create_error_response(...)` or `detector.get_multi_location_analysis`
lookup raises AttributeError at run time.  The embedding reflects this
faithfully.
-/

/-- JSON values as Python json.loads produces them: None, bool, number, string,
list, dict.  Dicts are insertion-ordered association lists, as in Python. -/
inductive PyJson where
  | null
  | bool (b : Bool)
  | int (n : Int)
  | str (s : String)
  | arr (elems : List PyJson)
  | obj (fields : List (String × PyJson))

/-- True exactly for dict values; embeds the Python distinction between
objects that support item assignment and attribute `.get` and those that
do not. -/
def PyJson.isObj : PyJson → Bool
  | .obj _ => true
  | _ => false

/-- One call to the generative model (`model.generate_content(...)` /
`vision_model.generate_content(...)`): it either raises an exception whose
string form is `e`, or returns a response whose `.text` is `text`. -/
inductive ModelResult where
  | raises (e : String)
  | returns (text : String)
deriving DecidableEq

/-- Python exceptions escaping an embedded function.  `attributeError` is the
kind raised by a failed attribute lookup such as `self._create_error_response`
on an object whose class never defines that attribute. -/
inductive PyExn where
  | attributeError (msg : String)
  | other (msg : String)
deriving DecidableEq

/-- The `str(e)` form of an escaped exception, as used by
`asyncio.gather(..., return_exceptions=True)` consumers. -/
def PyExn.toMessage : PyExn → String
  | .attributeError m => m
  | .other m => m

/-- The embedding of `json.loads`: an oracle that either returns a parsed
value or fails with a JSONDecodeError whose string form is carried in the
error.  The claims depend only on success/failure and on the parsed value,
never on the grammar of JSON itself. -/
abbrev JsonLoads := String → Except String PyJson

/-- Characters stripped by Python `str.strip()` with no argument. -/
def pyIsSpace (c : Char) : Bool :=
  c == ' ' || c == '\t' || c == '\n' || c == '\r' || c == '\x0b' || c == '\x0c'

/-- Python `s.strip()`: remove leading and trailing whitespace. -/
def pyStrip (s : String) : String :=
  String.mk (((s.toList.dropWhile pyIsSpace).reverse.dropWhile pyIsSpace).reverse)

/-- Boolean prefix test on character lists (the recursion `startswith`
bottoms out on). -/
def listIsPrefixLC : List Char → List Char → Bool
  | [], _ => true
  | _ :: _, [] => false
  | a :: as, b :: bs => a == b && listIsPrefixLC as bs

/-- Python `s.startswith(p)`. -/
def pyStartsWith (s p : String) : Bool := listIsPrefixLC p.toList s.toList

/-- Python slice `s[a:-b]` for literal nonnegative `a` and positive `b`:
the characters at indices `a <= i < len(s) - b`, clamped to the empty string
when the range is empty (as Python slices are). -/
def pySliceToNeg (s : String) (a b : Nat) : String :=
  String.mk ((s.toList.drop a).take (s.toList.length - b - a))

/-- Embeds src/app.py lines 98-101 (and the textually identical lines 209-212
of `analyze_batch_social_posts`): if the text starts with a ```json fence,
take `t[7:-3].strip()`; else if it starts with a bare ``` fence, take
`t[3:-3].strip()`; otherwise leave it unchanged. -/
def stripFences (t : String) : String :=
  if pyStartsWith t ("```json") then pyStrip (pySliceToNeg t 7 3)
  else if pyStartsWith t ("```") then pyStrip (pySliceToNeg t 3 3)
  else t

/-- Embeds src/app.py lines 158-159, the fence handling of
`analyze_user_report`: ONLY the ```json variant is stripped; there is no
`elif` for a bare ``` fence in this path. -/
def stripFencesUserReport (t : String) : String :=
  if pyStartsWith t ("```json") then pyStrip (pySliceToNeg t 7 3)
  else t

/-- First-match lookup in a dict association list (Python dict indexing /
`.get`; keys produced by json.loads or pyDictSet are unique). -/
def lookupField : List (String × PyJson) → String → Option PyJson
  | [], _ => none
  | (k, v) :: rest, key => if k = key then some v else lookupField rest key

/-- The key list of a dict association list. -/
def fieldKeys (fields : List (String × PyJson)) : List String := fields.map Prod.fst

/-- Python dict item assignment `d[key] = v`: replace in place when the key is
present (keeping its position), append at the end otherwise. -/
def pyDictSet (fields : List (String × PyJson)) (key : String) (v : PyJson) :
    List (String × PyJson) :=
  if (fieldKeys fields).contains key then
    fields.map (fun p => if p.1 = key then (key, v) else p)
  else fields ++ [(key, v)]

/-- Python dict built from a sequence of key/value pairs (dict comprehension):
later values overwrite earlier ones, first insertion position is kept. -/
def pyDictOfPairs (ps : List (String × PyJson)) : List (String × PyJson) :=
  ps.foldl (fun acc p => pyDictSet acc p.1 p.2) []

/-- The attribute names `class OceanHazardDetector` (src/app.py lines 15-168)
actually defines.  `analyze_batch_social_posts` (line 170, column 0) is not
among them, nor are the two defs nested inside it. -/
def oceanHazardDetectorMethods : List String :=
  ["__init__", "create_hazard_analysis_prompt", "analyze_current_hazards",
   "analyze_user_report"]

/-- String form of the AttributeError raised by every
`self._create_error_response(...)` lookup in `analyze_current_hazards`. -/
def attrErrCreateErrorResponse : String :=
  "AttributeError: OceanHazardDetector object has no attribute _create_error_response"

/-- String form of the AttributeError raised by the
`self.detector.get_multi_location_analysis` lookup in
`continuous_monitoring` (src/app.py line 259). -/
def attrErrGetMultiLocationAnalysis : String :=
  "AttributeError: OceanHazardDetector object has no attribute get_multi_location_analysis"

/-- Representative `str(e)` of the TypeError Python raises when
`analysis[key] = value` is executed on a parsed value that is not a dict. -/
def typeErrItemAssignment : String :=
  "TypeError: object does not support item assignment"

/-- The state `OceanHazardDetector.__init__` (src/app.py lines 16-22) builds:
the api_key passed to `genai.configure` and the two model names.  Line 20
passes the hardcoded literal string to `genai.configure`, not the `api_key`
parameter. -/
structure OceanHazardDetectorState where
  configured_api_key : String
  model_name : String
  vision_model_name : String
deriving DecidableEq

/-- Embeds `OceanHazardDetector.__init__` (src/app.py lines 16-22). -/
def oceanHazardDetectorInit (api_key : String) : OceanHazardDetectorState :=
  { configured_api_key := "API_KEY",
    model_name := "gemini-2.5-flash",
    vision_model_name := "gemini-2.5-flash-vision" }

/-- Embeds `OceanHazardDetector.analyze_current_hazards` (src/app.py lines
84-119).  `model` is the reply of `self.model.generate_content(prompt)` for
this call; `loads` embeds `json.loads`; `now` stands for the
`datetime.now().isoformat()` timestamp.  Control flow of the source:

  - model call raises (line 90): caught at line 117; the handler at line 119
    evaluates `self._create_error_response`, whose lookup raises
    AttributeError, and an exception raised inside an `except` handler
    escapes the function;
  - empty `response.text` (line 92): line 94 evaluates the same missing
    attribute, its AttributeError is caught at line 117, and line 119 raises
    AttributeError again, escaping;
  - `json.loads` failure (line 113): the JSONDecodeError handler at line 115
    evaluates the missing attribute; the AttributeError propagates to line
    117 whose handler raises it again at line 119, escaping;
  - parsed value not a dict: the item assignment at line 107 raises
    TypeError, caught at line 117, and line 119 escapes with AttributeError;
  - success (lines 104-111): the parsed dict with processed_at and source
    set is returned. -/
def analyze_current_hazards (loads : JsonLoads) (model : ModelResult)
    (now location : String) : Except PyExn PyJson :=
  match model with
  | .raises e => .error (.attributeError attrErrCreateErrorResponse)
  | .returns text =>
      if text = "" then
        .error (.attributeError attrErrCreateErrorResponse)
      else
        match loads (stripFences (pyStrip text)) with
        | .ok (.obj fields) =>
            .ok (.obj (pyDictSet
              (pyDictSet fields ("processed_at") (.str now))
              ("source") (.str ("gemini_web_analysis"))))
        | .ok _ => .error (.attributeError attrErrCreateErrorResponse)
        | .error e => .error (.attributeError attrErrCreateErrorResponse)

/-- Embeds the body of `_create_error_response` (src/app.py lines 220-230).
By its indentation this def is a dead nested function of the module-level
`analyze_batch_social_posts`, so it is never an attribute of the class; its
body is embedded to exhibit the error shape the source intends. -/
def create_error_response (now location error : String) : PyJson :=
  .obj [("location", .str location),
        ("overall_risk_level", .str ("UNKNOWN")),
        ("hazards", .arr []),
        ("error", .str error),
        ("analysis_time", .str now)]

/-- Embeds `OceanHazardDetector.analyze_user_report` (src/app.py lines
121-168).  `model` is the reply of whichever of the two generate_content
calls ran (the vision model when image bytes were supplied, the text model
otherwise — the branch at lines 150-154 only selects the oracle).  The whole
body sits in one try whose `except Exception` returns
`{"error": str(e), "is_hazard": False}`; no branch of this function can
raise, because its handler touches only attributes that exist.  There is no
empty-text check in this path: empty text reaches json.loads and fails
there. -/
def analyze_user_report (loads : JsonLoads) (model : ModelResult)
    (now report_text location : String) : Except PyExn PyJson :=
  match model with
  | .raises e => .ok (.obj [("error", .str e), ("is_hazard", .bool false)])
  | .returns text =>
      match loads (stripFencesUserReport (pyStrip text)) with
      | .ok (.obj fields) =>
          .ok (.obj (pyDictSet fields ("processed_at") (.str now)))
      | .ok _ =>
          .ok (.obj [("error", .str typeErrItemAssignment),
                     ("is_hazard", .bool false)])
      | .error e =>
          .ok (.obj [("error", .str e), ("is_hazard", .bool false)])

/-- Embeds the module-level function `analyze_batch_social_posts`
(src/app.py lines 170-218).  The posts list and location are interpolated
only into the prompt sent to the model, so the returned value is fully
determined by the model reply: the fence-stripped text is parsed and the
parsed value is returned UNCHANGED (no metadata is added and non-dict values
are returned as-is); any exception, including a JSONDecodeError or a raising
model call, becomes `{"error": str(e)}`.  The function never raises. -/
def analyze_batch_social_posts (loads : JsonLoads) (model : ModelResult)
    (posts : List String) (location : String) : Except PyExn PyJson :=
  match model with
  | .raises e => .ok (.obj [("error", .str e)])
  | .returns text =>
      match loads (stripFences (pyStrip text)) with
      | .ok j => .ok j
      | .error e => .ok (.obj [("error", .str e)])

/-- How `asyncio.gather(..., return_exceptions=True)` consumers see one task:
the task value on success, `{"error": str(result)}` for a captured
exception (src/app.py line 242). -/
def gatherValue (r : Except PyExn PyJson) : PyJson :=
  match r with
  | .ok j => j
  | .error e => .obj [("error", .str e.toMessage)]

/-- Embeds the body of `get_multi_location_analysis` (src/app.py lines
232-245).  Like `_create_error_response`, this def is nested inside the
module-level `analyze_batch_social_posts` and therefore never an attribute of
the class; its body is embedded to settle what the source intends it to
compute.  `model` gives each per-location call its own reply; the timestamps
of the run are abstracted as the single value `now`. -/
def get_multi_location_analysis (loads : JsonLoads) (model : String → ModelResult)
    (now : String) (locations : List String) : PyJson :=
  .obj [("analysis_time", .str now),
        ("locations", .obj (pyDictOfPairs (locations.map
          (fun loc => (loc, gatherValue
            (analyze_current_hazards loads (model loc) now loc))))))]

/-- Outcome of one iteration of the `while True` loop of
`continuous_monitoring` (src/app.py lines 256-271).  Both constructors carry
the sleep that follows; neither exits the loop, which has no break or return.
`normal` records the (location, data) pairs for which the alert side effect
`send_alert` was invoked. -/
inductive CycleOutcome where
  | normal (alerted : List (String × PyJson)) (sleepSeconds : Nat)
  | recovered (loggedError : String) (sleepSeconds : Nat)

/-- The alert condition of src/app.py line 263:
`data.get("overall_risk_level") in ["HIGH", "EXTREME"]`.  A missing key gives
None, which is not in the list; a non-string value is likewise not in it. -/
def riskTriggersAlert (data : PyJson) : Bool :=
  match data with
  | .obj fields =>
      match lookupField fields ("overall_risk_level") with
      | some (.str s) => s == "HIGH" || s == "EXTREME"
      | _ => false
  | _ => false

/-- One iteration of `continuous_monitoring` (src/app.py lines 256-271),
parameterized by the outcome `fetch` of evaluating
`await self.detector.get_multi_location_analysis(locations)`.  Any exception
in the cycle body — the fetch itself, `results["locations"]` on a non-dict,
a missing "locations" key, `.items()` on a non-dict, or `data.get` on a
non-dict — is caught by the `except Exception` at line 269, logged, and
followed by a fixed 60-second sleep; otherwise `send_alert` runs for exactly
the HIGH/EXTREME locations and the cycle sleeps `interval_minutes * 60`
seconds.  `send_alert` is modeled as the invocation event (its body only
prints). -/
def monitoringCycle (fetch : Except PyExn PyJson) (interval_minutes : Nat) :
    CycleOutcome :=
  match fetch with
  | .error e => .recovered e.toMessage 60
  | .ok results =>
      match results with
      | .obj rfields =>
          match lookupField rfields ("locations") with
          | some (.obj locPairs) =>
              if locPairs.all (fun p => p.2.isObj) then
                .normal (locPairs.filter (fun p => riskTriggersAlert p.2))
                  (interval_minutes * 60)
              else
                .recovered ("AttributeError: object has no attribute get") 60
          | some _ =>
              .recovered ("AttributeError: object has no attribute items") 60
          | none => .recovered ("KeyError: locations") 60
      | _ => .recovered ("TypeError: object is not subscriptable") 60

/-- What `await self.detector.get_multi_location_analysis(locations)`
actually does in src/app.py line 259: the attribute lookup on the
`OceanHazardDetector` instance raises AttributeError before any call is
made, because the class does not define that attribute. -/
def detectorGetMultiLocationAnalysisCall : Except PyExn PyJson :=
  .error (.attributeError attrErrGetMultiLocationAnalysis)

/-- One iteration of `HazardMonitoringService.continuous_monitoring` as the
program actually composes it. -/
def continuousMonitoringCycle (interval_minutes : Nat) : CycleOutcome :=
  monitoringCycle detectorGetMultiLocationAnalysisCall interval_minutes

/-- A json.loads oracle that fails on every input (models a model reply that
is never valid JSON). -/
def loads0 : JsonLoads := fun s => .error ("Expecting value: line 1 column 1 (char 0)")

/-- A json.loads oracle agreeing with Python json.loads on the one document
used in the success-path scenario: the object source text parses to the
corresponding dict, everything else fails. -/
def loadsW : JsonLoads := fun s =>
  if s = ("\x7b\"location\": \"X\"\x7d") then
    .ok (.obj [("location", .str ("X"))])
  else .error ("Expecting value: line 1 column 1 (char 0)")

/-- A model reply for the batch path: a syntactically valid JSON object whose
total_posts_analyzed is 3 and whose hazard_posts is nonempty. -/
def batchReplyText : String :=
  "\x7b\"total_posts_analyzed\": 3, \"hazard_posts\": [\"post 1 riptide\"]\x7d"

/-- A json.loads oracle agreeing with Python json.loads on `batchReplyText`:
that document parses to the corresponding dict, everything else fails. -/
def loadsBatch : JsonLoads := fun s =>
  if s = batchReplyText then
    .ok (.obj [("total_posts_analyzed", .int 3),
               ("hazard_posts", .arr [.str ("post 1 riptide")])])
  else .error ("Expecting value: line 1 column 1 (char 0)")

/-- A model oracle that raises on every call (network failure). -/
def modelRaisesAll : String → ModelResult :=
  fun loc => .raises ("ConnectionError: network unreachable")

/-- A HazardReport with overall_risk_level HIGH, for exercising the alert
branch of the monitor against a hypothetical fetched result. -/
def sampleHighReport : PyJson :=
  .obj [("location", .str ("Malibu")),
        ("overall_risk_level", .str ("HIGH")),
        ("hazards", .arr [])]

/-- A HazardReport with overall_risk_level LOW. -/
def sampleLowReport : PyJson :=
  .obj [("location", .str ("Venice")),
        ("overall_risk_level", .str ("LOW")),
        ("hazards", .arr [])]

/-- A well-formed multi-location result containing one HIGH and one LOW
location, in the shape the source intends `get_multi_location_analysis` to
return. -/
def sampleMultiResultHigh : PyJson :=
  .obj [("analysis_time", .str ("t0")),
        ("locations", .obj [("Malibu", sampleHighReport),
                            ("Venice", sampleLowReport)])]

/-- Strings rebuilt from character lists expose their characters. -/
theorem toList_mk (l : List Char) : (String.mk l).toList = l := rfl

/-- A list is a prefix of itself extended by anything. -/
theorem listIsPrefixLC_append_self (xs ys : List Char) :
    listIsPrefixLC xs (xs ++ ys) = true := by
  induction xs with
  | nil => rfl
  | cons a as ih => simp [listIsPrefixLC, ih]

/-- Testing a prefix below a common left part reduces to testing the
remainders. -/
theorem listIsPrefixLC_append_both (xs ys zs : List Char) :
    listIsPrefixLC (xs ++ ys) (xs ++ zs) = listIsPrefixLC ys zs := by
  induction xs with
  | nil => rfl
  | cons a as ih => simp [listIsPrefixLC, ih]

/-- A prefix of a prefix is a prefix: if `xs ++ ys` prefixes `l`, so does
`xs`. -/
theorem listIsPrefixLC_mono (xs ys l : List Char)
    (h : listIsPrefixLC (xs ++ ys) l = true) : listIsPrefixLC xs l = true := by
  induction xs generalizing l with
  | nil => rfl
  | cons a as ih =>
      cases l with
      | nil => simp [listIsPrefixLC] at h
      | cons b bs =>
          simp only [List.cons_append, listIsPrefixLC, Bool.and_eq_true] at h ⊢
          exact ⟨h.1, ih bs h.2⟩

/-- Python slicing `s[a:-3]` on a string decomposed as prefix, middle and a
3-character tail yields exactly the middle. -/
theorem pySliceToNeg_append (pre mid tl : List Char) (h3 : tl.length = 3) :
    pySliceToNeg (String.mk (pre ++ (mid ++ tl))) pre.length 3 = String.mk mid := by
  unfold pySliceToNeg
  rw [toList_mk]
  have hlen : (pre ++ (mid ++ tl)).length - 3 - pre.length = mid.length := by
    simp only [List.length_append, h3]
    omega
  rw [List.drop_left, hlen, List.take_left]

/-- Assigning an absent key appends it at the end of the dict. -/
theorem pyDictSet_of_not_contains (fields : List (String × PyJson)) (key : String)
    (v : PyJson) (h : (fieldKeys fields).contains key = false) :
    pyDictSet fields key v = fields ++ [(key, v)] := by
  unfold pyDictSet
  rw [h]
  simp

/-- C1: the claim states that `analyze_current_hazards(L)` always returns an
object with `location == L`, an enumerated `overall_risk_level` and a
`hazards` field, even when the model call fails.  In the source as written it
does not: because `_create_error_response` is not an attribute of
`OceanHazardDetector` (its def is nested, by indentation, inside the
module-level `analyze_batch_social_posts`), every failure path raises
AttributeError out of `analyze_current_hazards` instead of returning the
error object.  This theorem evaluates the embedded code at two failing
inputs: a raising model call, and an empty model reply. -/
theorem C1_hazard_scan_failure_paths_raise :
    analyze_current_hazards loads0 (.raises ("ConnectionError: network unreachable"))
        ("2026-10-12T00:00:00") ("Santa Monica")
      = .error (.attributeError attrErrCreateErrorResponse)
    ∧ analyze_current_hazards loads0 (.returns (""))
        ("2026-10-12T00:00:00") ("Santa Monica")
      = .error (.attributeError attrErrCreateErrorResponse) :=
  ⟨rfl, rfl⟩

/-- C2: the claim states that `get_multi_location_analysis` returns a mapping
keyed by exactly the input locations and never raises.  In the source as
written, `get_multi_location_analysis` is not an attribute of
`OceanHazardDetector` at all (first conjunct: it is absent from the class
attribute table), so `detector.get_multi_location_analysis(locations)`
raises AttributeError at the lookup.  The second conjunct evaluates the
embedded body of the dead nested def at a concrete input, showing that the
intended code does key the result by exactly the input locations, isolating
the per-location failures (here: each location's AttributeError from
`analyze_current_hazards`, captured by `return_exceptions=True`). -/
theorem C2_get_multi_location_analysis_missing_from_class :
    oceanHazardDetectorMethods.contains ("get_multi_location_analysis") = false
    ∧ get_multi_location_analysis loads0 modelRaisesAll ("t0")
        (["Santa Monica", "Venice Beach"])
      = .obj [("analysis_time", .str ("t0")),
              ("locations", .obj
                [("Santa Monica", .obj [("error", .str attrErrCreateErrorResponse)]),
                 ("Venice Beach", .obj [("error", .str attrErrCreateErrorResponse)])])] :=
  ⟨by decide, rfl⟩

/-- C3: the claim states that the three failure modes of
`analyze_current_hazards` yield ErrorResponse objects with codes no_data,
json_parse_error, or the exception string, each preserving the location with
empty hazards and risk UNKNOWN.  In the source as written all three modes
raise AttributeError instead (first three conjuncts: empty reply, reply that
fails to parse under a loads oracle that rejects everything, raising model
call).  The fourth conjunct evaluates the dead `_create_error_response` body,
exhibiting the shape those paths were intended to return. -/
theorem C3_failure_modes_raise_instead_of_error_codes :
    analyze_current_hazards loads0 (.returns ("")) ("t0") ("Santa Monica")
      = .error (.attributeError attrErrCreateErrorResponse)
    ∧ analyze_current_hazards loads0 (.returns ("I cannot answer that"))
        ("t0") ("Santa Monica")
      = .error (.attributeError attrErrCreateErrorResponse)
    ∧ analyze_current_hazards loads0 (.raises ("ReadTimeout: request timed out"))
        ("t0") ("Santa Monica")
      = .error (.attributeError attrErrCreateErrorResponse)
    ∧ create_error_response ("t0") ("Santa Monica") ("no_data")
      = .obj [("location", .str ("Santa Monica")),
              ("overall_risk_level", .str ("UNKNOWN")),
              ("hazards", .arr []),
              ("error", .str ("no_data")),
              ("analysis_time", .str ("t0"))] :=
  ⟨rfl, rfl, rfl, rfl⟩

/-- C7: the claim states that each monitoring cycle alerts exactly the
HIGH/EXTREME locations, that any exception leads to a logged error and a
fixed 60-second sleep, and that the loop never terminates.  The loop indeed
never terminates (both cycle outcomes continue into a sleep) and the
exception path matches — but in the composed program the alert side effect
is NEVER invoked: every cycle's fetch raises AttributeError at the
`self.detector.get_multi_location_analysis` lookup, so every cycle takes the
exception branch with the fixed 60-second cooldown (first conjunct, for
every interval).  The second conjunct shows that a cycle fed a well-formed
result containing one HIGH and one LOW location would alert exactly the HIGH
one and sleep `30 * 60` seconds, which is what the claim describes and what
the code would do were the method reachable. -/
theorem C7_monitoring_cycle_always_takes_exception_branch :
    (∀ m : Nat, continuousMonitoringCycle m
        = .recovered attrErrGetMultiLocationAnalysis 60)
    ∧ monitoringCycle (.ok sampleMultiResultHigh) 30
        = .normal [(("Malibu"), sampleHighReport)] 1800 :=
  ⟨fun _m => rfl, rfl⟩

/-- C10: the constructor ignores its `api_key` parameter: it configures the
client with the hardcoded literal string (src/app.py line 20), so
construction behaves identically for every pair of argument values and the
credential loaded from the environment has no effect on the configured
client. -/
theorem C10_api_key_parameter_ignored :
    (∀ k1 k2 : String, oceanHazardDetectorInit k1 = oceanHazardDetectorInit k2)
    ∧ (∀ k : String, (oceanHazardDetectorInit k).configured_api_key = ("API_KEY"))
    ∧ (oceanHazardDetectorInit ("real-env-secret")).configured_api_key
        ≠ ("real-env-secret") :=
  ⟨fun _k1 _k2 => rfl, fun _k => rfl, by decide⟩

/-- C4: the claim states that neither detector entry point ever raises.  Half
of it holds: `analyze_user_report` returns a well-formed object on every
input and every model behavior (first conjunct), because its whole body sits
in one try whose handler touches only existing attributes.  But
`analyze_current_hazards` does raise: when the model call fails, its
`except` handler evaluates the missing `_create_error_response` attribute
and the resulting AttributeError escapes (second conjunct, evaluated at a
raising model call). -/
theorem C4_user_report_total_but_hazard_scan_raises :
    (∀ (loads : JsonLoads) (model : ModelResult) (now report_text location : String),
        (analyze_user_report loads model now report_text location).isOk = true)
    ∧ (analyze_current_hazards loads0 (.raises ("ConnectionError: network unreachable"))
          ("t0") ("Santa Monica")).isOk = false := by
  refine ⟨?_, rfl⟩
  intro loads model now report_text location
  cases model with
  | raises e => rfl
  | returns text =>
      simp only [analyze_user_report]
      cases hl : loads (stripFencesUserReport (pyStrip text)) with
      | error e => rfl
      | ok j => cases j <;> rfl

/-- C6: on the success path of the hazard scan — model reply nonempty,
fence-stripped text parsed by json.loads into a dict not already carrying
the metadata keys — `analyze_current_hazards` returns exactly the parsed
object with precisely two fields appended at the end: `processed_at` (the
processing timestamp) and `source` with value gemini_web_analysis; every
field of the parsed structure is unchanged and keeps its position. -/
theorem C6_success_path_appends_only_metadata
    (loads : JsonLoads) (text now location : String)
    (fields : List (String × PyJson))
    (htext : text ≠ "")
    (hparse : loads (stripFences (pyStrip text)) = .ok (.obj fields))
    (hp : (fieldKeys fields).contains ("processed_at") = false)
    (hs : (fieldKeys fields).contains ("source") = false) :
    analyze_current_hazards loads (.returns text) now location
      = .ok (.obj (fields ++ [(("processed_at"), .str now),
                              (("source"), .str ("gemini_web_analysis"))])) := by
  simp only [analyze_current_hazards]
  rw [if_neg htext, hparse]
  show Except.ok (PyJson.obj (pyDictSet
      (pyDictSet fields ("processed_at") (.str now))
      ("source") (.str ("gemini_web_analysis")))) = _
  rw [pyDictSet_of_not_contains fields ("processed_at") (.str now) hp]
  rw [pyDictSet_of_not_contains]
  · rw [List.append_assoc]
    rfl
  · unfold fieldKeys
    rw [List.map_append]
    simp only [List.elem_eq_mem, decide_eq_false_iff_not, List.mem_append, not_or]
    constructor
    · simpa [fieldKeys, List.elem_eq_mem, decide_eq_false_iff_not] using hs
    · simp

/-- C6 witness: the spec scenario — a model reply wrapped in a ```json fence
around a JSON object — run through the embedded success path with a loads
oracle agreeing with Python json.loads on that document. -/
theorem C6_success_path_appends_only_metadata_witness :
    analyze_current_hazards loadsW
        (.returns ("```json\n\x7b\"location\": \"X\"\x7d\n```")) ("t1") ("X")
      = .ok (.obj [("location", .str ("X")),
                   ("processed_at", .str ("t1")),
                   ("source", .str ("gemini_web_analysis"))]) :=
  C6_success_path_appends_only_metadata loadsW
    ("```json\n\x7b\"location\": \"X\"\x7d\n```") ("t1") ("X")
    [("location", .str ("X"))]
    (by decide) (by rfl) (by decide) (by decide)

/-- C8: fence-stripping is the identity on already-clean text: any text that
does not start with a fence marker is left unchanged by the stripping step
of every normalization path (the whitespace `strip()` preceding the fence
check at line 97 is a separate cleanup; the fence conditional itself touches
nothing).  Not starting with a bare ``` marker also rules out the longer
```json marker. -/
theorem C8_clean_text_unchanged_by_strip (s : String)
    (h : pyStartsWith s ("```") = false) :
    stripFences s = s ∧ stripFencesUserReport s = s := by
  have hj : pyStartsWith s ("```json") = false := by
    cases hcase : pyStartsWith s ("```json") with
    | false => rfl
    | true =>
        exfalso
        have hsplit : ("```json").toList = ("```").toList ++ ("json").toList := by
          decide
        unfold pyStartsWith at hcase h
        rw [hsplit] at hcase
        have := listIsPrefixLC_mono (("```").toList) (("json").toList) s.toList hcase
        rw [this] at h
        exact Bool.true_eq_false.mp h
  unfold stripFences stripFencesUserReport
  rw [hj, h]
  exact ⟨rfl, rfl⟩

/-- C8 witness: a bare JSON object with no fence marker passes both
stripping steps unchanged. -/
theorem C8_clean_text_unchanged_by_strip_witness :
    pyStartsWith ("\x7b\"overall_risk_level\": \"LOW\"\x7d") ("```") = false
    ∧ stripFences ("\x7b\"overall_risk_level\": \"LOW\"\x7d")
        = ("\x7b\"overall_risk_level\": \"LOW\"\x7d")
    ∧ stripFencesUserReport ("\x7b\"overall_risk_level\": \"LOW\"\x7d")
        = ("\x7b\"overall_risk_level\": \"LOW\"\x7d") :=
  ⟨by decide,
   (C8_clean_text_unchanged_by_strip ("\x7b\"overall_risk_level\": \"LOW\"\x7d")
      (by decide)).1,
   (C8_clean_text_unchanged_by_strip ("\x7b\"overall_risk_level\": \"LOW\"\x7d")
      (by decide)).2⟩

/-- C5 counterexample: the claim says BOTH fence variants are handled in each
normalization path, but the user-report path (src/app.py lines 158-159) has
no branch for a bare ``` fence: text opening with ``` and not with ```json
passes through unchanged, rather than losing 3 characters at each end (with
or without the subsequent whitespace trim). -/
theorem C5_user_report_path_ignores_bare_fence :
    stripFencesUserReport ("```\nabc\n```") = ("```\nabc\n```")
    ∧ stripFencesUserReport ("```\nabc\n```") ≠ ("\nabc\n")
    ∧ stripFencesUserReport ("```\nabc\n```") ≠ ("abc") :=
  ⟨by decide, by decide, by decide⟩

/-- C5 (amended): in the hazard-scan and batch-post paths, text formed as the
7-character marker ```json followed by a middle and any 3-character tail is
cut to exactly that middle (then whitespace-trimmed), and text formed as the
3-character marker ``` followed by a middle and any 3-character tail — and
not continuing with the letters json — is likewise cut to the middle (then
trimmed); the user-report path applies only the ```json rule and leaves
bare-fence text unchanged.  The fixed offsets mean the tail is removed
whether or not it is an actual closing fence. -/
theorem C5_fence_offsets_amended (mid tail3 : List Char) (h3 : tail3.length = 3) :
    (stripFences (String.mk (("```json").toList ++ (mid ++ tail3)))
        = pyStrip (String.mk mid)
      ∧ stripFencesUserReport (String.mk (("```json").toList ++ (mid ++ tail3)))
        = pyStrip (String.mk mid))
    ∧ (listIsPrefixLC (("json").toList) (mid ++ tail3) = false →
        stripFences (String.mk (("```").toList ++ (mid ++ tail3)))
          = pyStrip (String.mk mid)
        ∧ stripFencesUserReport (String.mk (("```").toList ++ (mid ++ tail3)))
          = String.mk (("```").toList ++ (mid ++ tail3))) := by
  have hj7 : ("```json").toList.length = 7 := by decide
  have hb3 : ("```").toList.length = 3 := by decide
  have hslicej := pySliceToNeg_append (("```json").toList) mid tail3 h3
  rw [hj7] at hslicej
  have hsliceb := pySliceToNeg_append (("```").toList) mid tail3 h3
  rw [hb3] at hsliceb
  have hswj : pyStartsWith (String.mk (("```json").toList ++ (mid ++ tail3)))
      ("```json") = true := by
    unfold pyStartsWith
    rw [toList_mk]
    exact listIsPrefixLC_append_self _ _
  constructor
  · constructor
    · unfold stripFences
      rw [hswj]
      simp only [if_true]
      rw [hslicej]
    · unfold stripFencesUserReport
      rw [hswj]
      simp only [if_true]
      rw [hslicej]
  · intro hno
    have hswbj : pyStartsWith (String.mk (("```").toList ++ (mid ++ tail3)))
        ("```json") = false := by
      have hlist : listIsPrefixLC (("```json").toList)
          (("```").toList ++ (mid ++ tail3)) = false := by
        rw [show (("```json").toList) = (("```").toList ++ ("json").toList) from
          by decide]
        rw [listIsPrefixLC_append_both]
        exact hno
      exact hlist
    have hswbb : pyStartsWith (String.mk (("```").toList ++ (mid ++ tail3)))
        ("```") = true := by
      unfold pyStartsWith
      rw [toList_mk]
      exact listIsPrefixLC_append_self _ _
    constructor
    · unfold stripFences
      rw [hswbj, hswbb]
      simp only [Bool.false_eq_true, if_false, if_true]
      rw [hsliceb]
    · unfold stripFencesUserReport
      rw [hswbj]
      simp only [Bool.false_eq_true, if_false]

/-- C5 witness: a one-character middle with an arbitrary 3-character tail,
run through both amended rules. -/
theorem C5_fence_offsets_amended_witness :
    (("xyz").toList.length = 3)
    ∧ stripFences (String.mk (("```json").toList ++ ((['a']) ++ ("xyz").toList)))
        = pyStrip (String.mk (['a']))
    ∧ (listIsPrefixLC (("json").toList) ((['a']) ++ ("xyz").toList) = false)
    ∧ stripFencesUserReport (String.mk (("```").toList ++ ((['a']) ++ ("xyz").toList)))
        = String.mk (("```").toList ++ ((['a']) ++ ("xyz").toList)) :=
  ⟨by decide,
   (C5_fence_offsets_amended (['a']) (("xyz").toList) (by decide)).1.1,
   by decide,
   ((C5_fence_offsets_amended (['a']) (("xyz").toList) (by decide)).2 (by decide)).2⟩

/-- C9 counterexample: the claim says `analyze_batch_social_posts([])` returns
total_posts_analyzed 0 and an empty hazard_posts list, but the function
returns the model's parsed reply without any post-processing, so a reply
claiming 3 analyzed posts and a nonempty hazard_posts list is returned
as-is even though the posts list is empty (`loadsBatch` agrees with Python
json.loads on this reply text). -/
theorem C9_batch_empty_posts_counterexample :
    analyze_batch_social_posts loadsBatch (.returns batchReplyText) []
        ("Los Angeles County Beaches")
      = .ok (.obj [("total_posts_analyzed", .int 3),
                   ("hazard_posts", .arr [.str ("post 1 riptide")])])
    ∧ (PyJson.int 3) ≠ (PyJson.int 0) :=
  ⟨rfl, by intro h; injection h with h2; exact absurd h2 (by decide)⟩

/-- C9 (amended): `analyze_batch_social_posts` returns the fence-stripped
model reply parsed as JSON, unmodified — the posts list (empty or not) only
shapes the prompt, never the returned object, so `total_posts_analyzed == 0`
and an empty `hazard_posts` hold exactly when the model's reply says so; the
code itself adds no guarantee. -/
theorem C9_batch_returns_model_reply_unchanged (loads : JsonLoads)
    (model : ModelResult) (location text : String) (j : PyJson)
    (hm : model = .returns text)
    (hp : loads (stripFences (pyStrip text)) = .ok j) :
    analyze_batch_social_posts loads model [] location = .ok j
    ∧ ∀ posts : List String,
        analyze_batch_social_posts loads model posts location
          = analyze_batch_social_posts loads model [] location := by
  subst hm
  constructor
  · simp only [analyze_batch_social_posts]
    rw [hp]
  · intro posts
    rfl

/-- C9 witness: the counterexample reply run through the amended statement. -/
theorem C9_batch_returns_model_reply_unchanged_witness :
    analyze_batch_social_posts loadsBatch (.returns batchReplyText) [] ("LA")
      = .ok (.obj [("total_posts_analyzed", .int 3),
                   ("hazard_posts", .arr [.str ("post 1 riptide")])])
    ∧ ∀ posts : List String,
        analyze_batch_social_posts loadsBatch (.returns batchReplyText) posts ("LA")
          = analyze_batch_social_posts loadsBatch (.returns batchReplyText) [] ("LA") :=
  C9_batch_returns_model_reply_unchanged loadsBatch (.returns batchReplyText) ("LA")
    batchReplyText
    (.obj [("total_posts_analyzed", .int 3),
           ("hazard_posts", .arr [.str ("post 1 riptide")])])
    rfl (by rfl)
